import Mathlib

/-!
Verification development for the Elang interpreter (lexer / parser / evaluator
pipeline, `src/elang/`).  The evaluator (`evaluator.py`) is shallowly embedded:
Python values become the `Value` tagged union, the mutable environment chain and
the mutable list/map objects become an explicit `Store` (an array of frames plus
heaps for list and map contents), and the Python exceptions used for control
flow and errors (`ReturnSignal`, `BreakSignal`, `ContinueSignal`,
`RuntimeError_`, and uncaught host exceptions such as `TypeError` and
`ZeroDivisionError`) become the `EvalErr` type.  Recursion is bounded by an
explicit fuel parameter; `EvalErr.outOfFuel` is an artifact of the embedding,
not a program behaviour.

Scope notes, stated once here:
* module loading (`use`, `eval_UseNode`) reads the filesystem and is not
  embedded; no theorem below depends on it, and the module branch of method
  dispatch is likewise omitted.
* floating point: Python floats are modelled as exact rationals.  No theorem
  below evaluates float arithmetic other than exact division; the textual
  rendering of floats and float powers are modelled abstractly (marked below).
* `str % x` printf-formatting and mutation of a list while iterating over it
  are not modelled; no theorem depends on them.
-/

namespace Elang

/-- A Python number as held by `NumberNode` (`TT_INT` or `TT_FLOAT`). -/
inductive PyNum where
  | int (n : Int)
  | float (q : Rat)
deriving Repr

/-- AST nodes, one constructor per class of `nodes.py` (module and input
nodes aside, see the header).  `FStringNode` parts are `Sum.inl` for literal
segments and `Sum.inr` for expression segments. -/
inductive Node where
  | NumberNode (value : PyNum)
  | StringNode (value : String)
  | BoolNode (value : Bool)
  | NoneNode
  | IdentifierNode (name : String)
  | AssignNode (name : String) (value : Node)
  | CompoundAssignNode (name : String) (op : String) (value : Node)
  | BinOpNode (left : Node) (op : String) (right : Node)
  | UnaryOpNode (op : String) (operand : Node)
  | SayNode (expr : Node) (modifiers : List String)
  | TakeNode (prompt : Option Node)
  | MethodCallNode (obj : Node) (method : String) (args : List Node)
  | IfNode (condition : Node) (thenBlock : Node) (elseBlock : Option Node)
  | WhileNode (condition : Node) (body : Node)
  | ForRangeNode (var : String) (start : Node) (stop : Node)
      (step : Option Node) (reverse : Bool) (body : Node)
  | ForEachNode (var : String) (iterable : Node) (body : Node)
  | FunctionDefNode (name : String) (params : List String) (body : Node)
      (returnType : Option String)
  | FunctionCallNode (name : String) (args : List Node)
  | ReturnNode (value : Node)
  | BlockNode (statements : List Node)
  | BuiltinCommandNode (command : String)
  | ListNode (elements : List Node)
  | IndexGetNode (target : Node) (index : Node)
  | IndexSetNode (target : Node) (index : Node) (value : Node)
  | LambdaNode (params : List String) (body : Node)
  | BreakNode
  | ContinueNode
  | FStringNode (parts : List (String ⊕ Node))
  | ObjectLiteralNode (pairs : List (Node × Node))

/-- Runtime values.  Lists and dicts are mutable Python objects; a value holds
a reference into the corresponding heap of the `Store`.  `func` mirrors
`EushaFunction` (name, params, body, closure environment, return annotation),
`lam` mirrors `EushaLambda`. -/
inductive Value where
  | none
  | bool (b : Bool)
  | int (n : Int)
  | float (q : Rat)
  | str (s : String)
  | list (ref : Nat)
  | dict (ref : Nat)
  | func (name : String) (params : List String) (body : Node) (env : Nat)
      (returnType : Option String)
  | lam (params : List String) (body : Node) (env : Nat)

/-- One `Environment` object: its `vars` dict (insertion ordered) and its
`parent` pointer. -/
structure Frame where
  vars : List (String × Value)
  parent : Option Nat

/-- The mutable world: all `Environment` objects ever created, the contents of
all list and dict objects, text printed so far, and the remaining stdin
lines. -/
structure Store where
  frames : Array Frame
  lists : Array (List Value)
  dicts : Array (List (Value × Value))
  output : String
  input : List String

/-- The ways an evaluator call can fail to return a value: the three control
signals and `RuntimeError_` from `evaluator.py`, an uncaught host (Python)
exception carrying its class name, and fuel exhaustion (embedding artifact). -/
inductive EvalErr where
  | returnSignal (v : Value)
  | breakSignal
  | continueSignal
  | runtimeError (msg : String)
  | hostError (kind : String) (msg : String)
  | outOfFuel

/-- Result of one evaluator call. -/
inductive Outcome where
  | ok (v : Value)
  | err (e : EvalErr)

/-- Assignment into a Python dict used as a variable table: replace the value
at the (unique) matching key in place, keeping its position, else append. -/
def frameSet : List (String × Value) → String → Value → List (String × Value)
  | [], name, v => [(name, v)]
  | p :: rest, name, v =>
    if p.1 = name then (p.1, v) :: rest else p :: frameSet rest name v

/-- Lookup in one frame's variable table. -/
def frameGet : List (String × Value) → String → Option Value
  | [], _ => Option.none
  | p :: rest, name => if p.1 = name then some p.2 else frameGet rest name

/-- `Environment.get`: walk the parent chain to the first binding.  Fuel bounds
the chain length (call sites pass `st.frames.size`; the chain is acyclic by
construction, every parent being an older frame). -/
def envGet (st : Store) : Nat → Nat → String → Option Value
  | 0, _, _ => Option.none
  | fuel + 1, ref, name =>
    match st.frames[ref]? with
    | Option.none => Option.none
    | some fr =>
      match frameGet fr.vars name with
      | some v => some v
      | Option.none =>
        match fr.parent with
        | some p => envGet st fuel p name
        | Option.none => Option.none

/-- `Environment.set` / `Environment.assign`: both write into the designated
frame itself (local-first, never the parent chain). -/
def envSetVar (st : Store) (ref : Nat) (name : String) (v : Value) : Store :=
  { st with
    frames := st.frames.modify ref
      (fun fr => { fr with vars := frameSet fr.vars name v }) }

/-- The single quote character, for Python `repr` of strings. -/
def squote : String := String.singleton (Char.ofNat 39)

/-- Python `repr` restricted to the value forms of this interpreter
(`repr(None) = "None"`, booleans capitalised, strings quoted, containers
recursively).  String escaping inside `repr` is not modelled (no claim prints
a string that needs escapes).  Rendering a float (`ratRepr`) is abstract. -/
def ratRepr (q : Rat) : String := toString q

def pyRepr (st : Store) : Nat → Value → String
  | 0, _ => ""
  | _ + 1, Value.none => "None"
  | _ + 1, Value.bool b => if b then "True" else "False"
  | _ + 1, Value.int n => toString n
  | _ + 1, Value.float q => ratRepr q
  | _ + 1, Value.str s => squote ++ s ++ squote
  | fuel + 1, Value.list r =>
    let items := (st.lists[r]?.getD []).map (pyRepr st fuel)
    "[" ++ String.intercalate ", " items ++ "]"
  | fuel + 1, Value.dict r =>
    let items := (st.dicts[r]?.getD []).map
      (fun p => pyRepr st fuel p.1 ++ ": " ++ pyRepr st fuel p.2)
    "\x7b" ++ String.intercalate ", " items ++ "\x7d"
  | _ + 1, Value.func name _ _ _ _ => "<fn " ++ name ++ ">"
  | _ + 1, Value.lam params _ _ =>
    "<lambda (" ++ String.intercalate ", " params ++ ")>"

/-- Python `str()`: identical to `repr` except on strings themselves. -/
def pyStr (st : Store) (fuel : Nat) : Value → String
  | Value.str s => s
  | v => pyRepr st fuel v

/-- `Evaluator._format_value`, the display form used by `say` and f-strings:
`none`, lowercase booleans, recursively formatted containers, `str()` for the
rest. -/
def formatValue (st : Store) : Nat → Value → String
  | 0, _ => ""
  | _ + 1, Value.none => "none"
  | _ + 1, Value.bool b => if b then "true" else "false"
  | fuel + 1, Value.list r =>
    let items := (st.lists[r]?.getD []).map (formatValue st fuel)
    "[" ++ String.intercalate ", " items ++ "]"
  | fuel + 1, Value.dict r =>
    let items := (st.dicts[r]?.getD []).map
      (fun p => formatValue st fuel p.1 ++ ": " ++ formatValue st fuel p.2)
    "\x7b" ++ String.intercalate ", " items ++ "\x7d"
  | fuel + 1, v => pyStr st fuel v

/-- Python truthiness, as used by `bool(...)` in the evaluator: `None`, false,
zero, the empty string and empty containers are falsy, everything else truthy. -/
def pyBool (st : Store) : Value → Bool
  | Value.none => false
  | Value.bool b => b
  | Value.int n => n ≠ 0
  | Value.float q => q ≠ 0
  | Value.str s => s ≠ ""
  | Value.list r => !(st.lists[r]?.getD []).isEmpty
  | Value.dict r => !(st.dicts[r]?.getD []).isEmpty
  | Value.func _ _ _ _ _ => true
  | Value.lam _ _ _ => true

/-- A numeric value in Python's tower: bools are ints (`isinstance(True, int)`),
ints embed into floats. -/
inductive NumV where
  | i (n : Int)
  | f (q : Rat)

/-- Numeric reading of a value (`bool ≤ int ≤ float`); `Option.none` for
non-numbers. -/
def toNum : Value → Option NumV
  | Value.bool b => some (NumV.i (if b then 1 else 0))
  | Value.int n => some (NumV.i n)
  | Value.float q => some (NumV.f q)
  | _ => Option.none

def NumV.toRat : NumV → Rat
  | NumV.i n => (n : Rat)
  | NumV.f q => q

/-- int op int stays int, anything touching a float is a float. -/
def numArith (f : Int → Int → Int) (g : Rat → Rat → Rat) : NumV → NumV → Value
  | NumV.i a, NumV.i b => Value.int (f a b)
  | a, b => Value.float (g a.toRat b.toRat)

/-- Python `==` on two values of this interpreter: numeric kinds compare by
value (`1 == True`), strings by content, lists and dicts by (order-insensitive
for dicts) content through the heap, `None` only to itself.  Function values
compare by identity in Python; they are compared structurally on their fields
here (no claim compares function values). -/
def listEqBy (eq : Value → Value → Bool) : List Value → List Value → Bool
  | [], [] => true
  | a :: as_, b :: bs => eq a b && listEqBy eq as_ bs
  | _, _ => false

def lookupBy (eq : Value → Value → Bool) :
    List (Value × Value) → Value → Option Value
  | [], _ => Option.none
  | p :: rest, k => if eq p.1 k then some p.2 else lookupBy eq rest k

def dictEqBy (eq : Value → Value → Bool)
    (a b : List (Value × Value)) : Bool :=
  a.length = b.length &&
    a.all (fun p =>
      match lookupBy eq b p.1 with
      | some w => eq p.2 w
      | Option.none => false)

def pyEq (st : Store) : Nat → Value → Value → Bool
  | 0, _, _ => false
  | fuel + 1, a, b =>
    match toNum a, toNum b with
    | some x, some y => x.toRat == y.toRat
    | _, _ =>
      match a, b with
      | Value.none, Value.none => true
      | Value.str s, Value.str t => s == t
      | Value.list r1, Value.list r2 =>
        listEqBy (pyEq st fuel) (st.lists[r1]?.getD []) (st.lists[r2]?.getD [])
      | Value.dict r1, Value.dict r2 =>
        dictEqBy (pyEq st fuel) (st.dicts[r1]?.getD []) (st.dicts[r2]?.getD [])
      | Value.func n1 p1 _ e1 _, Value.func n2 p2 _ e2 _ =>
        n1 == n2 && p1 == p2 && e1 == e2
      | Value.lam p1 _ e1, Value.lam p2 _ e2 => p1 == p2 && e1 == e2
      | _, _ => false

/-- `right == 0` as used by the division-by-zero checks: true exactly for the
numeric zeros (`0`, `0.0`, `False`). -/
def isPyZero (v : Value) : Bool :=
  match toNum v with
  | some x => x.toRat == 0
  | Option.none => false

/-- Python dict write `obj[key] = val`: replace the value at the first
(`==`-equal) key, keeping the original key and its position, else append. -/
def dictSet (eq : Value → Value → Bool) :
    List (Value × Value) → Value → Value → List (Value × Value)
  | [], k, v => [(k, v)]
  | p :: rest, k, v =>
    if eq p.1 k then (p.1, v) :: rest else p :: dictSet eq rest k v

/-- Comparison of two list contents Python-style: skip `==`-equal prefixes,
decide at the first unequal pair, shorter list first on a proper prefix. -/
def lexCompareBy (eq : Value → Value → Bool)
    (cmp : Value → Value → Except EvalErr Ordering) :
    List Value → List Value → Except EvalErr Ordering
  | [], [] => Except.ok Ordering.eq
  | [], _ :: _ => Except.ok Ordering.lt
  | _ :: _, [] => Except.ok Ordering.gt
  | a :: as_, b :: bs =>
    if eq a b then lexCompareBy eq cmp as_ bs else cmp a b

/-- Python ordering (`<` and friends): numeric kinds by value, strings
lexicographically, lists lexicographically through the heap; every other pair
raises `TypeError` (wrapped or not depending on the call site). -/
def pyCompare (st : Store) : Nat → Value → Value → Except EvalErr Ordering
  | 0, _, _ => Except.error EvalErr.outOfFuel
  | fuel + 1, a, b =>
    match toNum a, toNum b with
    | some x, some y => Except.ok (compare x.toRat y.toRat)
    | _, _ =>
      match a, b with
      | Value.str s, Value.str t => Except.ok (compare s t)
      | Value.list r1, Value.list r2 =>
        lexCompareBy (pyEq st fuel) (pyCompare st fuel)
          (st.lists[r1]?.getD []) (st.lists[r2]?.getD [])
      | _, _ =>
        Except.error (EvalErr.hostError "TypeError"
          "comparison not supported between these types")

/-- Python `int(x)`: ints unchanged, bools to 0/1, floats truncated toward
zero, numeric strings parsed (`ValueError` otherwise), anything else
`TypeError`.  The host-exception kind matters: call sites catch different
subsets. -/
def parseIntStr (s : String) : Option Int :=
  let t := s.trim
  let core := if t.startsWith "-" || t.startsWith "+" then t.drop 1 else t
  match core.toNat? with
  | some n => some (if t.startsWith "-" then -(n : Int) else (n : Int))
  | Option.none => Option.none

def pyIntCoerce : Value → Except EvalErr Int
  | Value.int n => Except.ok n
  | Value.bool b => Except.ok (if b then 1 else 0)
  | Value.float q => Except.ok (q.num.tdiv (q.den : Int))
  | Value.str s =>
    match parseIntStr s with
    | some n => Except.ok n
    | Option.none =>
      Except.error (EvalErr.hostError "ValueError"
        ("invalid literal for int() with base 10: " ++ s))
  | _ => Except.error (EvalErr.hostError "TypeError"
      "int() argument must be a string or a number")

/-- Python `float(x)` (decimal strings only). -/
def parseFloatStr (s : String) : Option Rat :=
  let t := s.trim
  let neg := t.startsWith "-"
  let core := if neg || t.startsWith "+" then t.drop 1 else t
  match core.splitOn "." with
  | [w] =>
    match w.toNat? with
    | some n => some (if neg then -(n : Rat) else (n : Rat))
    | Option.none => Option.none
  | [w, frac] =>
    match w.toNat?, frac.toNat? with
    | some n, some m =>
      let q : Rat := (n : Rat) + (m : Rat) / ((10 : Rat) ^ frac.length)
      some (if neg then -q else q)
    | _, _ => Option.none
  | _ => Option.none

def pyFloatCoerce : Value → Except EvalErr Rat
  | Value.int n => Except.ok (n : Rat)
  | Value.bool b => Except.ok (if b then 1 else 0)
  | Value.float q => Except.ok q
  | Value.str s =>
    match parseFloatStr s with
    | some q => Except.ok q
    | Option.none =>
      Except.error (EvalErr.hostError "ValueError"
        ("could not convert string to float: " ++ s))
  | _ => Except.error (EvalErr.hostError "TypeError"
      "float() argument must be a string or a number")

/-- Allocate a fresh list object. -/
def allocList (st : Store) (contents : List Value) : Value × Store :=
  (Value.list st.lists.size, { st with lists := st.lists.push contents })

/-- Allocate a fresh dict object. -/
def allocDict (st : Store) (contents : List (Value × Value)) : Value × Store :=
  (Value.dict st.dicts.size, { st with dicts := st.dicts.push contents })

/-- The Python type name of a value, for error messages. -/
def typeName : Value → String
  | Value.none => "NoneType"
  | Value.bool _ => "bool"
  | Value.int _ => "int"
  | Value.float _ => "float"
  | Value.str _ => "str"
  | Value.list _ => "list"
  | Value.dict _ => "dict"
  | Value.func _ _ _ _ _ => "EushaFunction"
  | Value.lam _ _ _ => "EushaLambda"

/-- String / list repetition for `*` (non-positive counts give the empty
sequence, as in Python). -/
def strRepeat (s : String) : Int → String
  | Int.ofNat n => String.join (List.replicate n s)
  | Int.negSucc _ => ""

def listRepeat (l : List Value) : Int → List Value
  | Int.ofNat n => (List.replicate n l).flatten
  | Int.negSucc _ => []

/-- An int-like value for sequence repetition (`"ab" * true` is legal Python,
`"ab" * 1.5` is not). -/
def toIntLike : Value → Option Int
  | Value.int n => some n
  | Value.bool b => some (if b then 1 else 0)
  | _ => Option.none

/-- `+` of `eval_BinOpNode` / `eval_CompoundAssignNode` (the two sites are
textually identical): a string on either side means `str(left) + str(right)`
(host `str()`, not the display form); otherwise Python `+` — numeric
addition, or list concatenation (allocating a fresh list); a `TypeError` is
caught by both sites and re-raised as `RuntimeError_(str(e))`. -/
def addValues (fuel : Nat) (l r : Value) (st : Store) : Outcome × Store :=
  match l, r with
  | Value.str _, _ => (Outcome.ok (Value.str (pyStr st fuel l ++ pyStr st fuel r)), st)
  | _, Value.str _ => (Outcome.ok (Value.str (pyStr st fuel l ++ pyStr st fuel r)), st)
  | _, _ =>
    match toNum l, toNum r with
    | some a, some b => (Outcome.ok (numArith (· + ·) (· + ·) a b), st)
    | _, _ =>
      match l, r with
      | Value.list r1, Value.list r2 =>
        let (v, st1) := allocList st
          ((st.lists[r1]?.getD []) ++ (st.lists[r2]?.getD []))
        (Outcome.ok v, st1)
      | _, _ =>
        (Outcome.err (EvalErr.runtimeError
          ("unsupported operand type(s) for +: " ++ typeName l ++ " and " ++ typeName r)), st)

/-- `-`: numeric only; `TypeError` wrapped into a runtime error at both
sites. -/
def subValues (l r : Value) (st : Store) : Outcome × Store :=
  match toNum l, toNum r with
  | some a, some b => (Outcome.ok (numArith (· - ·) (· - ·) a b), st)
  | _, _ =>
    (Outcome.err (EvalErr.runtimeError
      ("unsupported operand type(s) for -: " ++ typeName l ++ " and " ++ typeName r)), st)

/-- `*`: numeric multiplication, or string/list repetition by an int-like
count (fresh list for list repetition); `TypeError` wrapped. -/
def mulValues (l r : Value) (st : Store) : Outcome × Store :=
  match toNum l, toNum r with
  | some a, some b => (Outcome.ok (numArith (· * ·) (· * ·) a b), st)
  | _, _ =>
    match l, r with
    | Value.str s, _ =>
      match toIntLike r with
      | some n => (Outcome.ok (Value.str (strRepeat s n)), st)
      | Option.none =>
        (Outcome.err (EvalErr.runtimeError "cannot multiply sequence by non-int"), st)
    | _, Value.str s =>
      match toIntLike l with
      | some n => (Outcome.ok (Value.str (strRepeat s n)), st)
      | Option.none =>
        (Outcome.err (EvalErr.runtimeError "cannot multiply sequence by non-int"), st)
    | Value.list ref, _ =>
      match toIntLike r with
      | some n =>
        let (v, st1) := allocList st (listRepeat (st.lists[ref]?.getD []) n)
        (Outcome.ok v, st1)
      | Option.none =>
        (Outcome.err (EvalErr.runtimeError "cannot multiply sequence by non-int"), st)
    | _, Value.list ref =>
      match toIntLike l with
      | some n =>
        let (v, st1) := allocList st (listRepeat (st.lists[ref]?.getD []) n)
        (Outcome.ok v, st1)
      | Option.none =>
        (Outcome.err (EvalErr.runtimeError "cannot multiply sequence by non-int"), st)
    | _, _ =>
      (Outcome.err (EvalErr.runtimeError
        ("unsupported operand type(s) for *: " ++ typeName l ++ " and " ++ typeName r)), st)

/-- `/` of both sites: the `right == 0` guard comes first and raises the
structured runtime error `Division by zero`; otherwise Python true division
(always a float); `TypeError` wrapped. -/
def divValues (l r : Value) (st : Store) : Outcome × Store :=
  if isPyZero r then
    (Outcome.err (EvalErr.runtimeError "Division by zero"), st)
  else
    match toNum l, toNum r with
    | some a, some b => (Outcome.ok (Value.float (a.toRat / b.toRat)), st)
    | _, _ =>
      (Outcome.err (EvalErr.runtimeError
        ("unsupported operand type(s) for /: " ++ typeName l ++ " and " ++ typeName r)), st)

/-- `%` of `eval_BinOpNode`: there is no zero guard here; a zero right operand
raises the host `ZeroDivisionError`, which the surrounding `except TypeError`
does not catch.  Non-zero: Python floor-sign modulo.  (Printf-style `str %`
is not modelled, see the header.) -/
def modValues (l r : Value) (st : Store) : Outcome × Store :=
  match toNum l, toNum r with
  | some a, some b =>
    if b.toRat == 0 then
      (Outcome.err (EvalErr.hostError "ZeroDivisionError"
        "integer division or modulo by zero"), st)
    else
      match a, b with
      | NumV.i x, NumV.i y => (Outcome.ok (Value.int (Int.fmod x y)), st)
      | _, _ =>
        let qa := a.toRat
        let qb := b.toRat
        (Outcome.ok (Value.float (qa - qb * (Rat.floor (qa / qb) : Rat))), st)
  | _, _ =>
    (Outcome.err (EvalErr.runtimeError
      ("unsupported operand type(s) for %: " ++ typeName l ++ " and " ++ typeName r)), st)

/-- `**`: int bases with non-negative int exponents stay ints, a negative int
exponent gives a float (`ZeroDivisionError` on a zero base, uncaught);
integral float exponents are computed exactly; a non-integral float exponent
is outside the rational model (marked `ModelLimit`, never exercised by a
claim). -/
def powValues (l r : Value) (st : Store) : Outcome × Store :=
  match toNum l, toNum r with
  | some a, some b =>
    let exp? : Option Int :=
      match b with
      | NumV.i y => some y
      | NumV.f q => if q.den = 1 then some q.num else Option.none
    match exp? with
    | Option.none =>
      (Outcome.err (EvalErr.hostError "ModelLimit"
        "non-integral float exponent not modelled"), st)
    | some y =>
      if a.toRat == 0 && y < 0 then
        (Outcome.err (EvalErr.hostError "ZeroDivisionError"
          "zero cannot be raised to a negative power"), st)
      else
        match a with
        | NumV.i x =>
          if 0 ≤ y then
            match b with
            | NumV.i _ => (Outcome.ok (Value.int (x ^ y.toNat)), st)
            | NumV.f _ => (Outcome.ok (Value.float ((x : Rat) ^ y)), st)
          else (Outcome.ok (Value.float ((x : Rat) ^ y)), st)
        | NumV.f q => (Outcome.ok (Value.float (q ^ y)), st)
  | _, _ =>
    (Outcome.err (EvalErr.runtimeError
      ("unsupported operand type(s) for **: " ++ typeName l ++ " and " ++ typeName r)), st)

/-- The operator dispatch of `eval_BinOpNode`, applied after *both* operands
have already been evaluated.  `and`/`or` are `bool(left) and/or bool(right)`
on the two computed values; comparisons wrap `TypeError` into a runtime
error (the `try` spans the whole dispatch); an unrecognised operator is the
final `Unknown operator` runtime error. -/
def applyBinOp (fuel : Nat) (op : String) (l r : Value) (st : Store) :
    Outcome × Store :=
  if op = "+" then addValues fuel l r st
  else if op = "-" then subValues l r st
  else if op = "*" then mulValues l r st
  else if op = "/" then divValues l r st
  else if op = "%" then modValues l r st
  else if op = "**" then powValues l r st
  else if op = "==" then (Outcome.ok (Value.bool (pyEq st fuel l r)), st)
  else if op = "!=" then (Outcome.ok (Value.bool (!pyEq st fuel l r)), st)
  else if op = "<" ∨ op = ">" ∨ op = "<=" ∨ op = ">=" then
    match pyCompare st fuel l r with
    | Except.ok o =>
      let b :=
        if op = "<" then o = Ordering.lt
        else if op = ">" then o = Ordering.gt
        else if op = "<=" then o ≠ Ordering.gt
        else o ≠ Ordering.lt
      (Outcome.ok (Value.bool b), st)
    | Except.error (EvalErr.hostError "TypeError" m) =>
      (Outcome.err (EvalErr.runtimeError m), st)
    | Except.error e => (Outcome.err e, st)
  else if op = "and" then
    (Outcome.ok (Value.bool (pyBool st l && pyBool st r)), st)
  else if op = "or" then
    (Outcome.ok (Value.bool (pyBool st l || pyBool st r)), st)
  else (Outcome.err (EvalErr.runtimeError ("Unknown operator " ++ op)), st)

/-- The operator dispatch of `eval_CompoundAssignNode` (`+ - * /` only; its
`+` and `/` are textually the same checks as the binary ones). -/
def applyCompound (fuel : Nat) (op : String) (current right : Value)
    (st : Store) : Outcome × Store :=
  if op = "+" then addValues fuel current right st
  else if op = "-" then subValues current right st
  else if op = "*" then mulValues current right st
  else if op = "/" then divValues current right st
  else
    (Outcome.err (EvalErr.runtimeError
      ("Unknown compound operator " ++ op)), st)

/-- Stable insertion sort by a failing comparison, modelling `list.sort()`
(Python sorts with `<`; mixed element types raise `TypeError`, uncaught in
the list-method branch). -/
def insertBy (cmp : Value → Value → Except EvalErr Ordering) (x : Value) :
    List Value → Except EvalErr (List Value)
  | [] => Except.ok [x]
  | y :: ys => do
    let o ← cmp x y
    if o = Ordering.lt then
      Except.ok (x :: y :: ys)
    else do
      let rest ← insertBy cmp x ys
      Except.ok (y :: rest)

def sortBy (cmp : Value → Value → Except EvalErr Ordering) :
    List Value → Except EvalErr (List Value)
  | [] => Except.ok []
  | x :: xs => do
    let rest ← sortBy cmp xs
    insertBy cmp x rest

/-- `sum(obj)`: starts from the int 0 and adds numerically; a non-numeric
element raises `TypeError` (uncaught here, so a host error). -/
def sumNum : List Value → NumV → Except EvalErr NumV
  | [], acc => Except.ok acc
  | v :: vs, acc =>
    match toNum v with
    | some x =>
      sumNum vs
        (match acc, x with
         | NumV.i a, NumV.i b => NumV.i (a + b)
         | a, b => NumV.f (a.toRat + b.toRat))
    | Option.none =>
      Except.error (EvalErr.hostError "TypeError"
        "unsupported operand type(s) for +")

def NumV.toValue : NumV → Value
  | NumV.i n => Value.int n
  | NumV.f q => Value.float q

/-- `max(obj)` / `min(obj)` by Python ordering; empty sequence is a host
`ValueError` (uncaught). -/
def extremumBy (cmp : Value → Value → Except EvalErr Ordering)
    (keepLeft : Ordering → Bool) :
    List Value → Value → Except EvalErr Value
  | [], best => Except.ok best
  | v :: vs, best => do
    let o ← cmp best v
    extremumBy cmp keepLeft vs (if keepLeft o then best else v)

/-- The list-method branch of `eval_MethodCallNode` (`filter` and `map` call
back into the evaluator and are dispatched at the call site instead).  The
result is the new list contents (written back through the reference by the
caller) together with the returned value; `push` returns the receiver
itself. -/
def evalListMethod (fuel : Nat) (st : Store) (ref : Nat) (method : String)
    (contents : List Value) (args : List Value) :
    Except EvalErr (List Value × Value) :=
  if method = "push" then
    match args with
    | [v] => Except.ok (contents ++ [v], Value.list ref)
    | _ => Except.error (EvalErr.runtimeError ".push() takes exactly 1 argument")
  else if method = "pop" then
    match contents.getLast? with
    | some last => Except.ok (contents.dropLast, last)
    | Option.none =>
      Except.error (EvalErr.runtimeError "Cannot .pop() from an empty list")
  else if method = "sort" then do
    let sorted ← sortBy (pyCompare st fuel) contents
    Except.ok (sorted, Value.list ref)
  else if method = "reverse" then
    Except.ok (contents.reverse, Value.list ref)
  else if method = "sum" then do
    let total ← sumNum contents (NumV.i 0)
    Except.ok (contents, total.toValue)
  else if method = "max" then
    match contents with
    | [] => Except.error (EvalErr.hostError "ValueError" "max() arg is an empty sequence")
    | v :: vs => do
      let m ← extremumBy (pyCompare st fuel) (fun o => o ≠ Ordering.lt) vs v
      Except.ok (contents, m)
  else if method = "min" then
    match contents with
    | [] => Except.error (EvalErr.hostError "ValueError" "min() arg is an empty sequence")
    | v :: vs => do
      let m ← extremumBy (pyCompare st fuel) (fun o => o ≠ Ordering.gt) vs v
      Except.ok (contents, m)
  else if method = "length" then
    Except.ok (contents, Value.int contents.length)
  else
    Except.error (EvalErr.runtimeError
      ("Unknown list method ." ++ method ++ "()"))

/-- Substring containment for `.contains`; Python treats the empty needle as
contained everywhere. -/
def containsSub (s sub : String) : Bool :=
  if sub = "" then true else (s.splitOn sub).length > 1

/-- The string-method branch of `eval_MethodCallNode`.  `split` allocates a
fresh list; nothing else touches the store.  Passing a non-string argument
where Python requires one raises `TypeError` (uncaught in this branch). -/
def evalStrMethod (st : Store) (s : String) (method : String)
    (args : List Value) : (Outcome × Store) :=
  if method = "length" then (Outcome.ok (Value.int s.length), st)
  else if method = "upper" then (Outcome.ok (Value.str s.toUpper), st)
  else if method = "lower" then (Outcome.ok (Value.str s.toLower), st)
  else if method = "trim" then (Outcome.ok (Value.str s.trim), st)
  else if method = "contains" then
    match args with
    | [Value.str sub] => (Outcome.ok (Value.bool (containsSub s sub)), st)
    | [_] =>
      (Outcome.err (EvalErr.hostError "TypeError"
        "in <string> requires string as left operand"), st)
    | _ => (Outcome.err (EvalErr.runtimeError
        ".contains() takes exactly 1 argument"), st)
  else if method = "split" then
    match args with
    | [] =>
      let parts := (s.split Char.isWhitespace).filter (· ≠ "")
      let (v, st1) := allocList st (parts.map Value.str)
      (Outcome.ok v, st1)
    | [Value.str sep] =>
      if sep = "" then
        (Outcome.err (EvalErr.hostError "ValueError" "empty separator"), st)
      else
        let (v, st1) := allocList st ((s.splitOn sep).map Value.str)
        (Outcome.ok v, st1)
    | _ =>
      (Outcome.err (EvalErr.hostError "TypeError"
        "must be str or None"), st)
  else if method = "replace" then
    match args with
    | [Value.str old, Value.str new] =>
      if old = "" then
        (Outcome.err (EvalErr.hostError "ModelLimit"
          "replace with empty pattern not modelled"), st)
      else (Outcome.ok (Value.str (s.replace old new)), st)
    | [_, _] =>
      (Outcome.err (EvalErr.hostError "TypeError" "replace arguments must be str"), st)
    | _ =>
      (Outcome.err (EvalErr.runtimeError
        ".replace() takes exactly 2 arguments"), st)
  else
    (Outcome.err (EvalErr.runtimeError
      ("Unknown string method ." ++ method ++ "()")), st)

/-- The `HELP_REGISTRY` topics in `sorted()` order, and each topic's text. -/
def helpTopicsSorted : List String :=
  ["break", "continue", "fn", "for", "help", "if",
   "len", "return", "say", "take", "use", "while"]

def helpText (topic : String) : Option String :=
  if topic = "say" then some
    ("  say(expression)\n" ++
     "  Prints a value. Use modifiers: .newl .space .tab\n" ++
     "  Example: say(\"Hello\").newl\n")
  else if topic = "take" then some
    ("  take() or take(\"prompt\")\n" ++
     "  Reads user input. Returns a string.\n" ++
     "  Example: name = take(\"What is your name? \")\n")
  else if topic = "if" then some
    ("  if condition \x7b ... \x7d else \x7b ... \x7d\n" ++
     "  Conditional branching.\n" ++
     "  Example:\n" ++
     "    if x > 10 \x7b\n" ++
     "      say(\"big\").newl\n" ++
     "    \x7d else \x7b\n" ++
     "      say(\"small\").newl\n" ++
     "    \x7d\n")
  else if topic = "for" then some
    ("  for (var in start..end) \x7b ... \x7d\n" ++
     "  for (var in start..end step N) \x7b ... \x7d\n" ++
     "  for (item in collection) \x7b ... \x7d\n" ++
     "  Loop over a range or collection.\n" ++
     "  Example: for (i in 1..5) \x7b say(i).space \x7d\n")
  else if topic = "while" then some
    ("  while (condition) \x7b ... \x7d\n" ++
     "  Loops as long as condition is true.\n" ++
     "  Example: while (x < 10) \x7b x = x + 1 \x7d\n")
  else if topic = "fn" then some
    ("  fn name(params) \x7b ... \x7d\n" ++
     "  Defines a function.\n" ++
     "  Example:\n" ++
     "    fn add(a, b) \x7b\n" ++
     "      return a + b\n" ++
     "    \x7d\n")
  else if topic = "return" then some
    ("  return expression\n" ++
     "  Returns a value from a function.\n")
  else if topic = "use" then some
    ("  use module_name\n" ++
     "  Imports a module as a namespace.\n" ++
     "  Example: use math\n" ++
     "           say(math.sqrt(25)).newl\n")
  else if topic = "break" then some
    ("  break\n" ++
     "  Exits the current loop immediately.\n")
  else if topic = "continue" then some
    ("  continue\n" ++
     "  Skips to the next iteration of the current loop.\n")
  else if topic = "len" then some
    ("  len(collection)\n" ++
     "  Returns the length of a list or string.\n" ++
     "  Example: len([1, 2, 3])  $$ returns 3\n")
  else if topic = "help" then some
    ("  help() or help(\"topic\")\n" ++
     "  Shows help information.\n" ++
     "  Available topics: say, take, if, for, while, fn, return,\n" ++
     "                    use, break, continue, len, help\n")
  else Option.none

/-- The `help()` builtin of `eval_FunctionCallNode`: prints and returns
null. -/
def helpRun (fuel : Nat) (args : List Value) (st : Store) : Outcome × Store :=
  match args with
  | [] =>
    let header := "\n  Elang Help System\n  " ++
      String.join (List.replicate 30 "=") ++ "\n  Available topics:\n"
    let topics := String.join
      (helpTopicsSorted.map (fun t => "    - " ++ t ++ "\n"))
    let usage := "\n  Usage: help(\"topic\")\n\n"
    (Outcome.ok Value.none, { st with output := st.output ++ header ++ topics ++ usage })
  | arg :: _ =>
    let topic := pyStr st fuel arg
    match helpText topic with
    | some text =>
      let block := "\n  Help: " ++ topic ++ "\n  " ++
        String.join (List.replicate 30 "-") ++ "\n" ++ text ++ "\n"
      (Outcome.ok Value.none, { st with output := st.output ++ block })
    | Option.none =>
      (Outcome.ok Value.none,
       { st with output := st.output ++ "\n  No help available for " ++
          squote ++ topic ++ squote ++ ".\n\n" })

/-- The fixed blurb behind `&&who.is.eusha`. -/
def whoIsEusha : String :=
  "\n" ++
  "  Eusha Ibna Akbor\n" ++
  "\n" ++
  "  Eusha Ibna Akbor is a 16-year-old programmer from Bangladesh with a strong\n" ++
  "  foundation in algorithms and software development.\n" ++
  "\n" ++
  "  He works on AI-based systems, backend architecture, and programming language\n" ++
  "  design. His projects focus on clean structure, performance, and thoughtful\n" ++
  "  engineering decisions.\n" ++
  "\n" ++
  "  He is the creator of Elang, a beginner-oriented programming language,\n" ++
  "  and founder of RareDev.\n" ++
  "\n" ++
  "  His interests include systems design, artificial intelligence,\n" ++
  "  and scalable software engineering.\n"

/-- Python `range(start, stop, step)` as a list: `start + step*k` for
`0 ≤ k < ceil((stop-start)/step)` (empty when the step points away from
`stop`). -/
def pyRangeLen (start stop step : Int) : Nat :=
  if 0 < step then ((stop - start + step - 1).fdiv step).toNat
  else if step < 0 then ((start - stop + (-step) - 1).fdiv (-step)).toNat
  else 0

def pyRange (start stop step : Int) : List Int :=
  (List.range (pyRangeLen start stop step)).map
    (fun k : Nat => start + step * (k : Int))

/-- Negative-index resolution for sequence subscripts. -/
def pythonIndex (n : Int) (len : Nat) : Option Nat :=
  let j := if n < 0 then n + (len : Int) else n
  if 0 ≤ j ∧ j < (len : Int) then some j.toNat else Option.none

/-- The type of one evaluator step at fixed remaining fuel: node,
environment reference, store. -/
abbrev EvalFn := Node → Nat → Store → Outcome × Store

/-- Evaluate a list of expressions left to right (argument lists, list
literals). -/
def seqEval (ev : EvalFn) : List Node → Nat → Store →
    Except EvalErr (List Value) × Store
  | [], _, st => (Except.ok [], st)
  | n :: rest, env, st =>
    match ev n env st with
    | (Outcome.ok v, st1) =>
      match seqEval ev rest env st1 with
      | (Except.ok vs, st2) => (Except.ok (v :: vs), st2)
      | (Except.error e, st2) => (Except.error e, st2)
    | (Outcome.err e, st1) => (Except.error e, st1)

/-- `eval_BlockNode`: run the statements in order *in the given environment*
(no new frame), returning the last statement's value (null for an empty
block). -/
def stmtsEval (ev : EvalFn) : List Node → Nat → Store → Outcome × Store
  | [], _, st => (Outcome.ok Value.none, st)
  | [s], env, st => ev s env st
  | s :: rest, env, st =>
    match ev s env st with
    | (Outcome.ok _, st1) => stmtsEval ev rest env st1
    | e => e

/-- Evaluate object-literal pairs: key first, then value, in source order. -/
def pairsEval (ev : EvalFn) : List (Node × Node) → Nat → Store →
    Except EvalErr (List (Value × Value)) × Store
  | [], _, st => (Except.ok [], st)
  | (k, v) :: rest, env, st =>
    match ev k env st with
    | (Outcome.ok kv, st1) =>
      match ev v env st1 with
      | (Outcome.ok vv, st2) =>
        match pairsEval ev rest env st2 with
        | (Except.ok kvs, st3) => (Except.ok ((kv, vv) :: kvs), st3)
        | (Except.error e, st3) => (Except.error e, st3)
      | (Outcome.err e, st2) => (Except.error e, st2)
    | (Outcome.err e, st1) => (Except.error e, st1)

/-- Evaluate f-string parts, formatting expression results with the display
form. -/
def fpartsEval (ev : EvalFn) (fmt : Store → Value → String) :
    List (String ⊕ Node) → Nat → Store → Except EvalErr String × Store
  | [], _, st => (Except.ok "", st)
  | Sum.inl s :: rest, env, st =>
    match fpartsEval ev fmt rest env st with
    | (Except.ok tail, st1) => (Except.ok (s ++ tail), st1)
    | e => e
  | Sum.inr n :: rest, env, st =>
    match ev n env st with
    | (Outcome.ok v, st1) =>
      match fpartsEval ev fmt rest env st1 with
      | (Except.ok tail, st2) => (Except.ok (fmt st1 v ++ tail), st2)
      | e => e
    | (Outcome.err e, st1) => (Except.error e, st1)

/-- The shared iteration of `eval_ForRangeNode` and `eval_ForEachNode`
(their loop bodies are textually identical): bind the loop variable *in the
current environment frame*, run the body, stop on break, skip on continue,
propagate returns and errors; the loop itself evaluates to null. -/
def loopRun (ev : EvalFn) : List Value → String → Node → Nat → Store →
    Outcome × Store
  | [], _, _, _, st => (Outcome.ok Value.none, st)
  | item :: rest, var, body, env, st =>
    let st1 := envSetVar st env var item
    match ev body env st1 with
    | (Outcome.ok _, st2) => loopRun ev rest var body env st2
    | (Outcome.err EvalErr.breakSignal, st2) => (Outcome.ok Value.none, st2)
    | (Outcome.err EvalErr.continueSignal, st2) => loopRun ev rest var body env st2
    | (Outcome.err e, st2) => (Outcome.err e, st2)

/-- `eval_WhileNode`, with its own fuel for the unbounded iteration count. -/
def whileRun (ev : EvalFn) : Nat → Node → Node → Nat → Store → Outcome × Store
  | 0, _, _, _, st => (Outcome.err EvalErr.outOfFuel, st)
  | fuel + 1, cond, body, env, st =>
    match ev cond env st with
    | (Outcome.ok c, st1) =>
      if pyBool st1 c then
        match ev body env st1 with
        | (Outcome.ok _, st2) => whileRun ev fuel cond body env st2
        | (Outcome.err EvalErr.breakSignal, st2) => (Outcome.ok Value.none, st2)
        | (Outcome.err EvalErr.continueSignal, st2) =>
          whileRun ev fuel cond body env st2
        | (Outcome.err e, st2) => (Outcome.err e, st2)
      else (Outcome.ok Value.none, st1)
    | (Outcome.err e, st1) => (Outcome.err e, st1)

/-- `Evaluator._call_function`: arity check, then a fresh frame whose parent
is the *captured* environment, parameters bound positionally.  A lambda
evaluates its expression body directly; a function runs its body, catches a
return signal, and otherwise yields null. -/
def bindParams (params : List String) (args : List Value) :
    List (String × Value) :=
  (params.zip args).foldl (fun acc pa => frameSet acc pa.1 pa.2) []

/-- Append the call frame: its parent is the environment the function value
carries (the closure environment), never the caller's. -/
def pushCallFrame (st : Store) (vars : List (String × Value))
    (parent : Nat) : Store :=
  { st with frames := st.frames.push ⟨vars, some parent⟩ }

/-- The `try/except ReturnSignal` around a function body: a caught return
yields its value, falling off the end yields null, all else propagates. -/
def handleReturn : Outcome × Store → Outcome × Store
  | (Outcome.ok _, st) => (Outcome.ok Value.none, st)
  | (Outcome.err (EvalErr.returnSignal v), st) => (Outcome.ok v, st)
  | e => e

def callFn (ev : EvalFn) (fn : Value) (args : List Value) (st : Store) :
    Outcome × Store :=
  match fn with
  | Value.lam params body envRef =>
    if args.length = params.length then
      ev body st.frames.size (pushCallFrame st (bindParams params args) envRef)
    else
      (Outcome.err (EvalErr.runtimeError
        ("Lambda expects " ++ toString params.length ++ " args, got " ++
         toString args.length)), st)
  | Value.func name params body envRef _ =>
    if args.length = params.length then
      handleReturn
        (ev body st.frames.size (pushCallFrame st (bindParams params args) envRef))
    else
      (Outcome.err (EvalErr.runtimeError
        (name ++ " expects " ++ toString params.length ++ " args, got " ++
         toString args.length)), st)
  | _ => (Outcome.err (EvalErr.runtimeError "Value is not callable"), st)

/-- `.map(fn)` over list contents, building a fresh result list. -/
def mapCall (ev : EvalFn) (fn : Value) : List Value → Store →
    Except EvalErr (List Value) × Store
  | [], st => (Except.ok [], st)
  | x :: xs, st =>
    match callFn ev fn [x] st with
    | (Outcome.ok v, st1) =>
      match mapCall ev fn xs st1 with
      | (Except.ok vs, st2) => (Except.ok (v :: vs), st2)
      | e => e
    | (Outcome.err e, st1) => (Except.error e, st1)

/-- `.filter(fn)`: keep the items whose callback result is truthy. -/
def filterCall (ev : EvalFn) (fn : Value) : List Value → Store →
    Except EvalErr (List Value) × Store
  | [], st => (Except.ok [], st)
  | x :: xs, st =>
    match callFn ev fn [x] st with
    | (Outcome.ok v, st1) =>
      match filterCall ev fn xs st1 with
      | (Except.ok vs, st2) =>
        (Except.ok (if pyBool st1 v then x :: vs else vs), st2)
      | e => e
    | (Outcome.err e, st1) => (Except.error e, st1)

def PyNum.toValue : PyNum → Value
  | PyNum.int n => Value.int n
  | PyNum.float q => Value.float q

/-- `say` modifiers to the printed suffix (three independent checks, in
modifier order). -/
def sayEnd (modifiers : List String) : String :=
  modifiers.foldl
    (fun acc m =>
      acc ++ (if m = "newl" then "\n" else "")
          ++ (if m = "space" then " " else "")
          ++ (if m = "tab" then "\t" else "")) ""

/-- One dispatch step of `Evaluator.eval`, non-recursive: all recursion goes
through `ev` (the evaluator at the next-smaller fuel) or through the fueled
helpers.  Each branch mirrors the corresponding `eval_*Node` method. -/
def evalStep (ev : EvalFn) (fuel : Nat) : EvalFn := fun node env st =>
  match node with
  | Node.NumberNode v => (Outcome.ok v.toValue, st)
  | Node.StringNode s => (Outcome.ok (Value.str s), st)
  | Node.BoolNode b => (Outcome.ok (Value.bool b), st)
  | Node.NoneNode => (Outcome.ok Value.none, st)
  | Node.ListNode elems =>
    match seqEval ev elems env st with
    | (Except.ok vs, st1) =>
      let (v, st2) := allocList st1 vs
      (Outcome.ok v, st2)
    | (Except.error e, st1) => (Outcome.err e, st1)
  | Node.ObjectLiteralNode pairs =>
    match pairsEval ev pairs env st with
    | (Except.ok kvs, st1) =>
      let contents := kvs.foldl
        (fun acc kv => dictSet (pyEq st1 fuel) acc kv.1 kv.2) []
      let (v, st2) := allocDict st1 contents
      (Outcome.ok v, st2)
    | (Except.error e, st1) => (Outcome.err e, st1)
  | Node.FStringNode parts =>
    match fpartsEval ev (fun s v => formatValue s fuel v) parts env st with
    | (Except.ok text, st1) => (Outcome.ok (Value.str text), st1)
    | (Except.error e, st1) => (Outcome.err e, st1)
  | Node.IndexGetNode target index =>
    match ev target env st with
    | (Outcome.ok tv, st1) =>
      match ev index env st1 with
      | (Outcome.ok iv, st2) =>
        match tv with
        | Value.dict r =>
          match lookupBy (pyEq st2 fuel) (st2.dicts[r]?.getD []) iv with
          | some v => (Outcome.ok v, st2)
          | Option.none =>
            (Outcome.err (EvalErr.runtimeError "Index error: KeyError"), st2)
        | _ =>
          match pyIntCoerce iv with
          | Except.error (EvalErr.hostError "TypeError" m) =>
            (Outcome.err (EvalErr.runtimeError ("Index error: " ++ m)), st2)
          | Except.error e => (Outcome.err e, st2)
          | Except.ok n =>
            match tv with
            | Value.list r =>
              let contents := st2.lists[r]?.getD []
              match pythonIndex n contents.length with
              | some j =>
                (Outcome.ok (contents.getD j Value.none), st2)
              | Option.none =>
                (Outcome.err (EvalErr.runtimeError
                  "Index error: list index out of range"), st2)
            | Value.str s =>
              match pythonIndex n s.length with
              | some j =>
                (Outcome.ok (Value.str (String.singleton (s.toList.getD j ' '))), st2)
              | Option.none =>
                (Outcome.err (EvalErr.runtimeError
                  "Index error: string index out of range"), st2)
            | _ =>
              (Outcome.err (EvalErr.runtimeError
                ("Index error: " ++ typeName tv ++ " is not subscriptable")), st2)
      | e => e
    | e => e
  | Node.IndexSetNode target index value =>
    match ev target env st with
    | (Outcome.ok tv, st1) =>
      match ev index env st1 with
      | (Outcome.ok iv, st2) =>
        match ev value env st2 with
        | (Outcome.ok vv, st3) =>
          match tv with
          | Value.dict r =>
            let contents := st3.dicts[r]?.getD []
            let newContents := dictSet (pyEq st3 fuel) contents iv vv
            (Outcome.ok vv,
             { st3 with dicts := st3.dicts.modify r (fun _ => newContents) })
          | Value.list r =>
            match pyIntCoerce iv with
            | Except.error (EvalErr.hostError "TypeError" m) =>
              (Outcome.err (EvalErr.runtimeError
                ("Index assignment error: " ++ m)), st3)
            | Except.error e => (Outcome.err e, st3)
            | Except.ok n =>
              let contents := st3.lists[r]?.getD []
              match pythonIndex n contents.length with
              | some j =>
                (Outcome.ok vv,
                 { st3 with lists := st3.lists.modify r (fun c => c.set j vv) })
              | Option.none =>
                (Outcome.err (EvalErr.runtimeError
                  "Index assignment error: list assignment index out of range"), st3)
          | _ =>
            (Outcome.err (EvalErr.runtimeError
              ("Index assignment error: " ++ typeName tv ++
               " does not support item assignment")), st3)
        | e => e
      | e => e
    | e => e
  | Node.IdentifierNode name =>
    match envGet st st.frames.size env name with
    | some v => (Outcome.ok v, st)
    | Option.none =>
      (Outcome.err (EvalErr.runtimeError ("Undefined variable " ++ name)), st)
  | Node.AssignNode name value =>
    match ev value env st with
    | (Outcome.ok v, st1) => (Outcome.ok v, envSetVar st1 env name v)
    | e => e
  | Node.CompoundAssignNode name op value =>
    match envGet st st.frames.size env name with
    | Option.none =>
      (Outcome.err (EvalErr.runtimeError ("Undefined variable " ++ name)), st)
    | some current =>
      match ev value env st with
      | (Outcome.ok right, st1) =>
        match applyCompound fuel op current right st1 with
        | (Outcome.ok result, st2) =>
          (Outcome.ok result, envSetVar st2 env name result)
        | e => e
      | e => e
  | Node.BinOpNode left op right =>
    match ev left env st with
    | (Outcome.ok lv, st1) =>
      match ev right env st1 with
      | (Outcome.ok rv, st2) => applyBinOp fuel op lv rv st2
      | e => e
    | e => e
  | Node.UnaryOpNode op operand =>
    match ev operand env st with
    | (Outcome.ok v, st1) =>
      if op = "-" then
        match toNum v with
        | some (NumV.i n) => (Outcome.ok (Value.int (-n)), st1)
        | some (NumV.f q) => (Outcome.ok (Value.float (-q)), st1)
        | Option.none =>
          (Outcome.err (EvalErr.hostError "TypeError"
            ("bad operand type for unary -: " ++ typeName v)), st1)
      else if op = "not" then
        (Outcome.ok (Value.bool (!pyBool st1 v)), st1)
      else
        (Outcome.err (EvalErr.runtimeError ("Unknown unary op " ++ op)), st1)
    | e => e
  | Node.SayNode expr modifiers =>
    match ev expr env st with
    | (Outcome.ok v, st1) =>
      (Outcome.ok Value.none,
       { st1 with output := st1.output ++ formatValue st1 fuel v ++ sayEnd modifiers })
    | e => e
  | Node.TakeNode prompt =>
    let afterPrompt : Outcome × Store :=
      match prompt with
      | Option.none => (Outcome.ok Value.none, st)
      | some p =>
        match ev p env st with
        | (Outcome.ok pv, st1) =>
          (Outcome.ok Value.none,
           { st1 with output := st1.output ++ pyStr st1 fuel pv })
        | e => e
    match afterPrompt with
    | (Outcome.ok _, st1) =>
      match st1.input with
      | [] => (Outcome.ok (Value.str ""), st1)
      | line :: rest => (Outcome.ok (Value.str line), { st1 with input := rest })
    | e => e
  | Node.MethodCallNode obj method args =>
    match ev obj env st with
    | (Outcome.ok objv, st1) =>
      match seqEval ev args env st1 with
      | (Except.ok argv, st2) =>
        match objv with
        | Value.dict r =>
          let contents := st2.dicts[r]?.getD []
          if method = "keys" then
            let (v, st3) := allocList st2 (contents.map (fun p => p.1))
            (Outcome.ok v, st3)
          else if method = "values" then
            let (v, st3) := allocList st2 (contents.map (fun p => p.2))
            (Outcome.ok v, st3)
          else if method = "length" then
            (Outcome.ok (Value.int contents.length), st2)
          else if method = "has" then
            match argv with
            | [k] =>
              (Outcome.ok (Value.bool
                (contents.any (fun p => pyEq st2 fuel p.1 k))), st2)
            | _ =>
              (Outcome.err (EvalErr.runtimeError
                ".has() takes exactly 1 argument"), st2)
          else
            match lookupBy (pyEq st2 fuel) contents (Value.str method), argv with
            | some v, [] => (Outcome.ok v, st2)
            | _, _ =>
              (Outcome.err (EvalErr.runtimeError
                ("Unknown object method ." ++ method ++ "()")), st2)
        | _ =>
          if method = "to_int" then
            match pyIntCoerce objv with
            | Except.ok n => (Outcome.ok (Value.int n), st2)
            | Except.error (EvalErr.hostError _ m) =>
              (Outcome.err (EvalErr.runtimeError
                ("Cannot convert " ++ pyRepr st2 fuel objv ++
                 " with .to_int(): " ++ m)), st2)
            | Except.error e => (Outcome.err e, st2)
          else if method = "to_float" then
            match pyFloatCoerce objv with
            | Except.ok q => (Outcome.ok (Value.float q), st2)
            | Except.error (EvalErr.hostError _ m) =>
              (Outcome.err (EvalErr.runtimeError
                ("Cannot convert " ++ pyRepr st2 fuel objv ++
                 " with .to_float(): " ++ m)), st2)
            | Except.error e => (Outcome.err e, st2)
          else if method = "to_str" then
            (Outcome.ok (Value.str (pyStr st2 fuel objv)), st2)
          else
            match objv with
            | Value.list r =>
              let contents := st2.lists[r]?.getD []
              if method = "filter" then
                match argv with
                | [fnv] =>
                  match filterCall ev fnv contents st2 with
                  | (Except.ok kept, st3) =>
                    let (v, st4) := allocList st3 kept
                    (Outcome.ok v, st4)
                  | (Except.error e, st3) => (Outcome.err e, st3)
                | _ =>
                  (Outcome.err (EvalErr.runtimeError
                    ".filter() takes exactly 1 argument (a function)"), st2)
              else if method = "map" then
                match argv with
                | [fnv] =>
                  match mapCall ev fnv contents st2 with
                  | (Except.ok results, st3) =>
                    let (v, st4) := allocList st3 results
                    (Outcome.ok v, st4)
                  | (Except.error e, st3) => (Outcome.err e, st3)
                | _ =>
                  (Outcome.err (EvalErr.runtimeError
                    ".map() takes exactly 1 argument (a function)"), st2)
              else
                match evalListMethod fuel st2 r method contents argv with
                | Except.ok (newContents, ret) =>
                  (Outcome.ok ret,
                   { st2 with lists := st2.lists.modify r (fun _ => newContents) })
                | Except.error e => (Outcome.err e, st2)
            | Value.str s => evalStrMethod st2 s method argv
            | _ =>
              (Outcome.err (EvalErr.runtimeError
                ("Unknown method ." ++ method ++ "() on " ++ typeName objv)), st2)
      | (Except.error e, st2) => (Outcome.err e, st2)
    | e => e
  | Node.IfNode cond thenBlock elseBlock =>
    match ev cond env st with
    | (Outcome.ok c, st1) =>
      if pyBool st1 c then ev thenBlock env st1
      else
        match elseBlock with
        | some eb => ev eb env st1
        | Option.none => (Outcome.ok Value.none, st1)
    | e => e
  | Node.WhileNode cond body => whileRun ev fuel cond body env st
  | Node.ForRangeNode var startN stopN stepN reverse body =>
    match ev startN env st with
    | (Outcome.ok sv, st1) =>
      match ev stopN env st1 with
      | (Outcome.ok tv, st2) =>
        let stepRes : Outcome × Store :=
          match stepN with
          | some sn => ev sn env st2
          | Option.none => (Outcome.ok (Value.int 1), st2)
        match stepRes with
        | (Outcome.ok pv, st3) =>
          match toNum sv with
          | Option.none =>
            (Outcome.err (EvalErr.runtimeError "Range start must be a number"), st3)
          | some _ =>
            match toNum tv with
            | Option.none =>
              (Outcome.err (EvalErr.runtimeError "Range end must be a number"), st3)
            | some _ =>
              match pyIntCoerce sv, pyIntCoerce tv, pyIntCoerce pv with
              | Except.ok a, Except.ok b, Except.ok p =>
                if p = 0 then
                  (Outcome.err (EvalErr.hostError "ValueError"
                    "range() arg 3 must not be zero"), st3)
                else
                  let items :=
                    if reverse then pyRange a (b - 1) (-(p.natAbs : Int))
                    else pyRange a (b + 1) (p.natAbs : Int)
                  loopRun ev (items.map Value.int) var body env st3
              | Except.error e, _, _ => (Outcome.err e, st3)
              | _, Except.error e, _ => (Outcome.err e, st3)
              | _, _, Except.error e => (Outcome.err e, st3)
        | e => e
      | e => e
    | e => e
  | Node.ForEachNode var iterable body =>
    match ev iterable env st with
    | (Outcome.ok itv, st1) =>
      match itv with
      | Value.str s =>
        loopRun ev (s.toList.map (fun c => Value.str (String.singleton c)))
          var body env st1
      | Value.list r =>
        loopRun ev (st1.lists[r]?.getD []) var body env st1
      | Value.dict r =>
        loopRun ev ((st1.dicts[r]?.getD []).map (fun p => p.1)) var body env st1
      | v =>
        (Outcome.err (EvalErr.runtimeError
          (pyStr st1 fuel v ++ " is not iterable")), st1)
    | e => e
  | Node.BreakNode => (Outcome.err EvalErr.breakSignal, st)
  | Node.ContinueNode => (Outcome.err EvalErr.continueSignal, st)
  | Node.LambdaNode params body => (Outcome.ok (Value.lam params body env), st)
  | Node.FunctionDefNode name params body returnType =>
    (Outcome.ok Value.none,
     envSetVar st env name (Value.func name params body env returnType))
  | Node.FunctionCallNode name args =>
    match seqEval ev args env st with
    | (Except.ok argv, st1) =>
      if name = "len" then
        match argv with
        | [obj] =>
          match obj with
          | Value.str s => (Outcome.ok (Value.int s.length), st1)
          | Value.list r =>
            (Outcome.ok (Value.int (st1.lists[r]?.getD []).length), st1)
          | _ =>
            (Outcome.err (EvalErr.runtimeError
              ("len() not supported for " ++ typeName obj)), st1)
        | _ =>
          (Outcome.err (EvalErr.runtimeError
            "len() takes exactly 1 argument"), st1)
      else if name = "help" then helpRun fuel argv st1
      else
        match envGet st1 st1.frames.size env name with
        | Option.none =>
          (Outcome.err (EvalErr.runtimeError ("Undefined variable " ++ name)), st1)
        | some fnv =>
          match fnv with
          | Value.func _ _ _ _ _ => callFn ev fnv argv st1
          | Value.lam _ _ _ => callFn ev fnv argv st1
          | _ =>
            (Outcome.err (EvalErr.runtimeError (name ++ " is not a function")), st1)
    | (Except.error e, st1) => (Outcome.err e, st1)
  | Node.ReturnNode value =>
    match ev value env st with
    | (Outcome.ok v, st1) => (Outcome.err (EvalErr.returnSignal v), st1)
    | e => e
  | Node.BlockNode statements => stmtsEval ev statements env st
  | Node.BuiltinCommandNode cmd =>
    if cmd = "who.is.eusha" then
      (Outcome.ok Value.none, { st with output := st.output ++ whoIsEusha ++ "\n" })
    else
      (Outcome.ok Value.none,
       { st with output := st.output ++ "[elang] Unknown command: &&" ++ cmd ++ "\n" })

/-- The evaluator: structural recursion on fuel, one unit per `Evaluator.eval`
dispatch (plus per while-iteration inside `whileRun`). -/
def evalNode : Nat → EvalFn
  | 0 => fun _ _ st => (Outcome.err EvalErr.outOfFuel, st)
  | fuel + 1 => evalStep (evalNode fuel) fuel

/-- The store at interpreter start-up: one global frame holding the two
builtin markers registered by `_setup_builtins`, no heap objects, empty
output, the given stdin lines. -/
def initStoreWith (input : List String) : Store :=
  { frames := #[⟨[("__builtin_len__", Value.bool true),
                  ("__builtin_help__", Value.bool true)], Option.none⟩],
    lists := #[], dicts := #[], output := "", input := input }

def initStore : Store := initStoreWith []

/-- What the driver reports for one run (`run_source` in `elang.py`, lexing
and parsing presupposed).  The three structured kinds are formatted with a
source pointer; every *other* exception — the control signals escaping to the
top and uncaught host exceptions — falls to the final `except Exception`
catch-all and is shown as a bare `Internal Error`. -/
inductive RunOutcome where
  | success
  | runtimeErrorReport (msg : String)
  | internalErrorReport
  | fuelExhausted

def runAST (fuel : Nat) (ast : Node) : RunOutcome × String :=
  match evalNode fuel ast 0 initStore with
  | (Outcome.ok _, st) => (RunOutcome.success, st.output)
  | (Outcome.err (EvalErr.runtimeError m), st) => (RunOutcome.runtimeErrorReport m, st.output)
  | (Outcome.err EvalErr.outOfFuel, st) => (RunOutcome.fuelExhausted, st.output)
  | (Outcome.err _, st) => (RunOutcome.internalErrorReport, st.output)

/-! ### The object-literal fragment of the parser (`Parser.parse_object_literal`) -/

/-- Tokens, as far as the object-literal grammar needs them. -/
inductive Tok where
  | ident (s : String)
  | keyword (s : String)
  | strLit (s : String)
  | intLit (n : Int)
  | colon
  | comma
  | lbrace
  | rbrace
  | newline

/-- `Parser.skip_newlines`. -/
def skipNewlines : List Tok → List Tok
  | Tok.newline :: rest => skipNewlines rest
  | ts => ts

/-- The literal/identifier rows of `parse_primary`, standing in for
`parse_expression` in the value position of an object literal (each claim
about object literals only ever puts a literal or an identifier there). -/
def parsePrimaryLit : List Tok → Except String (Node × List Tok)
  | Tok.intLit n :: rest => Except.ok (Node.NumberNode (PyNum.int n), rest)
  | Tok.strLit s :: rest => Except.ok (Node.StringNode s, rest)
  | Tok.keyword "true" :: rest => Except.ok (Node.BoolNode true, rest)
  | Tok.keyword "false" :: rest => Except.ok (Node.BoolNode false, rest)
  | Tok.keyword "none" :: rest => Except.ok (Node.NoneNode, rest)
  | Tok.ident name :: rest => Except.ok (Node.IdentifierNode name, rest)
  | _ => Except.error "Unexpected token"

/-- The key/value loop of `parse_object_literal`: a key token that is an
identifier or a keyword is turned into a *string literal node* of its spelled
name (same as an explicit string key) — it is never parsed as an expression;
the value after the colon is.  Commas separate entries, a trailing comma
before `}` ends the literal, and the closing brace is consumed. -/
def parseObjectPairs : Nat → List Tok → List (Node × Node) →
    Except String (List (Node × Node) × List Tok)
  | 0, _, _ => Except.error "out of fuel"
  | fuel + 1, toks, acc =>
    match skipNewlines toks with
    | Tok.ident s :: rest | Tok.keyword s :: rest | Tok.strLit s :: rest =>
      let key := Node.StringNode s
      match rest with
      | Tok.colon :: rest2 =>
        match parsePrimaryLit rest2 with
        | Except.error e => Except.error e
        | Except.ok (value, rest3) =>
          let acc2 := acc ++ [(key, value)]
          match skipNewlines rest3 with
          | Tok.comma :: rest4 =>
            match skipNewlines rest4 with
            | Tok.rbrace :: rest5 => Except.ok (acc2, rest5)
            | rest5 => parseObjectPairs fuel rest5 acc2
          | Tok.rbrace :: rest4 => Except.ok (acc2, rest4)
          | _ => Except.error "Expected RBRACE"
      | _ => Except.error "Expected COLON"
    | _ => Except.error "Expected a key in object literal"

/-- `parse_object_literal`: consume `{`, handle the empty literal, else run
the key/value loop. -/
def parseObjectLiteral (fuel : Nat) (toks : List Tok) :
    Except String (Node × List Tok) :=
  match toks with
  | Tok.lbrace :: rest =>
    match skipNewlines rest with
    | Tok.rbrace :: rest2 => Except.ok (Node.ObjectLiteralNode [], rest2)
    | rest2 =>
      match parseObjectPairs fuel rest2 [] with
      | Except.ok (pairs, rest3) => Except.ok (Node.ObjectLiteralNode pairs, rest3)
      | Except.error e => Except.error e
  | _ => Except.error "Expected LBRACE"

/-! ### Named programs used by the claim theorems -/

/-- `true or (1 / 0)` — only evaluable without error under short-circuiting. -/
def orDivZeroProg : Node :=
  Node.BinOpNode (Node.BoolNode true) "or"
    (Node.BinOpNode (Node.NumberNode (PyNum.int 1)) "/"
      (Node.NumberNode (PyNum.int 0)))

/-- `-"abc"` — unary minus on a string. -/
def negStrProg : Node := Node.UnaryOpNode "-" (Node.StringNode "abc")

/-- `if true { x = 1 }` followed by reading `x` in the enclosing scope. -/
def blockScopeProg : Node :=
  Node.BlockNode
    [Node.IfNode (Node.BoolNode true)
       (Node.BlockNode [Node.AssignNode "x" (Node.NumberNode (PyNum.int 1))])
       Option.none,
     Node.IdentifierNode "x"]

/-- `"x" + true`. -/
def strPlusBoolProg : Node :=
  Node.BinOpNode (Node.StringNode "x") "+" (Node.BoolNode true)

/-- `1 % 0`. -/
def modZeroProg : Node :=
  Node.BinOpNode (Node.NumberNode (PyNum.int 1)) "%"
    (Node.NumberNode (PyNum.int 0))

/-- `fn outer() { x = 1; fn inner() { return x } return inner }` then
`f = outer()` then `f()`. -/
def closureProg : Node :=
  Node.BlockNode
    [Node.FunctionDefNode "outer" []
       (Node.BlockNode
         [Node.AssignNode "x" (Node.NumberNode (PyNum.int 1)),
          Node.FunctionDefNode "inner" []
            (Node.BlockNode [Node.ReturnNode (Node.IdentifierNode "x")])
            Option.none,
          Node.ReturnNode (Node.IdentifierNode "inner")])
       Option.none,
     Node.AssignNode "f" (Node.FunctionCallNode "outer" []),
     Node.FunctionCallNode "f" []]

/-- `l = [1, 2]; l.push(3); l.pop()`. -/
def pushPopProg : Node :=
  Node.BlockNode
    [Node.AssignNode "l"
       (Node.ListNode [Node.NumberNode (PyNum.int 1),
                       Node.NumberNode (PyNum.int 2)]),
     Node.MethodCallNode (Node.IdentifierNode "l") "push"
       [Node.NumberNode (PyNum.int 3)],
     Node.MethodCallNode (Node.IdentifierNode "l") "pop" []]

/-- Tokens of `{a: 1}` with a bare-identifier key. -/
def objTokensIdent : List Tok :=
  [Tok.lbrace, Tok.ident "a", Tok.colon, Tok.intLit 1, Tok.rbrace]

/-- Tokens of `{if: 2}` with a keyword key. -/
def objTokensKeyword : List Tok :=
  [Tok.lbrace, Tok.keyword "if", Tok.colon, Tok.intLit 2, Tok.rbrace]

/-- A store whose global frame binds `a` to an arbitrary value `w`. -/
def storeWithA (w : Value) : Store :=
  { frames := #[⟨[("a", w)], Option.none⟩], lists := #[], dicts := #[],
    output := "", input := [] }

/-! ### Shared lemmas -/

theorem evalNode_succ (fuel : Nat) :
    evalNode (fuel + 1) = evalStep (evalNode fuel) fuel := rfl

theorem frameSet_frameSet (vs : List (String × Value)) (n : String)
    (a b : Value) : frameSet (frameSet vs n a) n b = frameSet vs n b := by
  induction vs with
  | nil => simp [frameSet]
  | cons p rest ih =>
    by_cases h : p.1 = n
    · simp [frameSet, h]
    · simp [frameSet, h, ih]

theorem frameGet_frameSet (vs : List (String × Value)) (n : String)
    (v : Value) : frameGet (frameSet vs n v) n = some v := by
  induction vs with
  | nil => simp [frameSet, frameGet]
  | cons p rest ih =>
    by_cases h : p.1 = n
    · simp [frameSet, frameGet, h]
    · simp [frameSet, frameGet, h, ih]

theorem arrayModifyTwice {α : Type} (a : Array α) (i : Nat) (f g : α → α) :
    (a.modify i f).modify i g = a.modify i (fun x => g (f x)) := by
  apply Array.ext
  · simp [Array.size_modify]
  · intro j h1 h2
    rw [Array.getElem_modify, Array.getElem_modify, Array.getElem_modify]
    split
    · simp [*]
    · rfl

theorem arrayModifyCongr {α : Type} (a : Array α) (i : Nat) (f g : α → α)
    (h : ∀ x, f x = g x) : a.modify i f = a.modify i g := by
  have hfg : f = g := funext h
  rw [hfg]

theorem envSetVar_envSetVar (st : Store) (e : Nat) (n : String)
    (a b : Value) :
    envSetVar (envSetVar st e n a) e n b = envSetVar st e n b := by
  unfold envSetVar
  congr 1
  rw [arrayModifyTwice]
  apply arrayModifyCongr
  intro fr
  simp [frameSet_frameSet]

theorem envSetVar_frames_size (st : Store) (e : Nat) (n : String)
    (v : Value) : (envSetVar st e n v).frames.size = st.frames.size := by
  simp [envSetVar, Array.size_modify]

/-! ### Claim theorems -/

/-- Claim C1, counterexample: in `true or (1/0)` the left operand is truthy,
yet evaluation raises the division-by-zero runtime error — the right operand
*is* evaluated and its errors do occur, so `and`/`or` do not short-circuit. -/
theorem C1_counterexample :
    evalNode 10 orDivZeroProg 0 initStore =
      (Outcome.err (EvalErr.runtimeError "Division by zero"), initStore) ∧
    ∀ (v : Value) (s : Store),
      evalNode 10 orDivZeroProg 0 initStore ≠ (Outcome.ok v, s) := by
  refine ⟨rfl, ?_⟩
  intro v s h
  rw [show evalNode 10 orDivZeroProg 0 initStore =
    (Outcome.err (EvalErr.runtimeError "Division by zero"), initStore) from rfl] at h
  simp at h

/-- Claim C1, amended: `and`/`or` evaluate *both* operands eagerly — an error
from the right operand propagates even when the left operand already decides
the answer — and when both succeed the result is always a boolean, the
conjunction/disjunction of the two operands' truthiness. -/
theorem C1_theorem :
    (∀ (g : Nat) (l r : Node) (op : String) (env : Nat) (st st1 st2 : Store)
       (lv : Value) (e : EvalErr),
       op = "and" ∨ op = "or" →
       evalNode g l env st = (Outcome.ok lv, st1) →
       evalNode g r env st1 = (Outcome.err e, st2) →
       evalNode (g + 1) (Node.BinOpNode l op r) env st = (Outcome.err e, st2)) ∧
    (∀ (g : Nat) (l r : Node) (env : Nat) (st st1 st2 : Store) (lv rv : Value),
       evalNode g l env st = (Outcome.ok lv, st1) →
       evalNode g r env st1 = (Outcome.ok rv, st2) →
       evalNode (g + 1) (Node.BinOpNode l "and" r) env st =
         (Outcome.ok (Value.bool (pyBool st2 lv && pyBool st2 rv)), st2) ∧
       evalNode (g + 1) (Node.BinOpNode l "or" r) env st =
         (Outcome.ok (Value.bool (pyBool st2 lv || pyBool st2 rv)), st2)) := by
  constructor
  · rintro g l r op env st st1 st2 lv e (h | h) h1 h2 <;> subst h <;>
      rw [evalNode_succ] <;> simp [evalStep, h1, h2]
  · intro g l r env st st1 st2 lv rv h1 h2
    constructor <;> rw [evalNode_succ] <;>
      simp [evalStep, h1, h2, applyBinOp]

/-- Claim C1, witness: the error case of `C1_theorem` instantiated at
`true or (1/0)`. -/
theorem C1_witness :
    (("or" : String) = "and" ∨ ("or" : String) = "or") ∧
    evalNode (5 + 1)
      (Node.BinOpNode (Node.BoolNode true) "or"
        (Node.BinOpNode (Node.NumberNode (PyNum.int 1)) "/"
          (Node.NumberNode (PyNum.int 0)))) 0 initStore =
      (Outcome.err (EvalErr.runtimeError "Division by zero"), initStore) :=
  ⟨Or.inr rfl,
   C1_theorem.1 5 _ _ "or" 0 initStore initStore initStore (Value.bool true)
     (EvalErr.runtimeError "Division by zero") (Or.inr rfl) rfl rfl⟩

/-- Claim C2, counterexample: evaluating `-"abc"` raises the host
`TypeError`, which is not any of the three structured error kinds, and the
driver reports it through its generic `Internal Error` catch-all, not as a
runtime-error diagnostic. -/
theorem C2_counterexample :
    (evalNode 12 negStrProg 0 initStore).1 =
      Outcome.err (EvalErr.hostError "TypeError"
        "bad operand type for unary -: str") ∧
    (∀ m, (evalNode 12 negStrProg 0 initStore).1 ≠
      Outcome.err (EvalErr.runtimeError m)) ∧
    (runAST 12 (Node.BlockNode [negStrProg])).1 =
      RunOutcome.internalErrorReport ∧
    (∀ m, (runAST 12 (Node.BlockNode [negStrProg])).1 ≠
      RunOutcome.runtimeErrorReport m) := by
  refine ⟨rfl, ?_, rfl, ?_⟩
  · intro m h
    rw [show (evalNode 12 negStrProg 0 initStore).1 =
      Outcome.err (EvalErr.hostError "TypeError"
        "bad operand type for unary -: str") from rfl] at h
    simp at h
  · intro m h
    rw [show (runAST 12 (Node.BlockNode [negStrProg])).1 =
      RunOutcome.internalErrorReport from rfl] at h
    simp at h

/-- Claim C2, amended: the evaluator can raise host-language exceptions
(here `TypeError` from unary minus on a string) in addition to the three
structured kinds; the driver catches everything — each run is reported as
success, one of the structured diagnostics, or the generic internal-error
message — so no exception escapes the driver, but not every failure is a
structured error. -/
theorem C2_theorem :
    evalNode 10 negStrProg 0 initStore =
      (Outcome.err (EvalErr.hostError "TypeError"
        "bad operand type for unary -: str"), initStore) ∧
    runAST 10 (Node.BlockNode [negStrProg]) =
      (RunOutcome.internalErrorReport, "") ∧
    (∀ (fuel : Nat) (ast : Node),
      (runAST fuel ast).1 = RunOutcome.success ∨
      (∃ m, (runAST fuel ast).1 = RunOutcome.runtimeErrorReport m) ∨
      (runAST fuel ast).1 = RunOutcome.internalErrorReport ∨
      (runAST fuel ast).1 = RunOutcome.fuelExhausted) := by
  refine ⟨rfl, rfl, ?_⟩
  intro fuel ast
  unfold runAST
  rcases hE : evalNode fuel ast 0 initStore with ⟨o, st⟩
  cases o with
  | ok v => simp
  | err e => cases e <;> simp

/-- Claim C3, counterexample: after `if true { x = 1 }` the binding of `x`
sits in the *enclosing* (global) frame — reading `x` after the block yields 1
— and no environment frame was ever created (the frame count is still 1), so
block entry does not create a fresh child environment. -/
theorem C3_counterexample :
    (evalNode 20 blockScopeProg 0 initStore).1 = Outcome.ok (Value.int 1) ∧
    ((evalNode 20 blockScopeProg 0 initStore).2).frames.size = 1 ∧
    frameGet (((evalNode 20 blockScopeProg 0 initStore).2).frames.getD 0
      ⟨[], Option.none⟩).vars "x" = some (Value.int 1) :=
  ⟨rfl, rfl, rfl⟩

/-- Claim C3, amended: a `{ … }` block evaluates its statements directly in
the enclosing environment (no frame is created on block entry); fresh frames
are created on function call, with the closure environment as parent. -/
theorem C3_theorem :
    (∀ (g : Nat) (stmts : List Node) (env : Nat) (st : Store),
       evalNode (g + 1) (Node.BlockNode stmts) env st =
         stmtsEval (evalNode g) stmts env st) ∧
    (∀ (ev : EvalFn) (name : String) (params : List String) (body : Node)
       (envRef : Nat) (rt : Option String) (args : List Value) (st : Store),
       args.length = params.length →
       callFn ev (Value.func name params body envRef rt) args st =
         handleReturn (ev body st.frames.size
           (pushCallFrame st (bindParams params args) envRef))) ∧
    (evalNode 20 blockScopeProg 0 initStore).1 = Outcome.ok (Value.int 1) ∧
    ((evalNode 20 blockScopeProg 0 initStore).2).frames.size = 1 := by
  refine ⟨fun g stmts env st => rfl, ?_, rfl, rfl⟩
  intro ev name params body envRef rt args st h
  simp [callFn, h]

/-- Claim C3, witness: the call-frame equation of `C3_theorem` instantiated
at a zero-argument function. -/
theorem C3_witness :
    (([] : List Value).length = ([] : List String).length) ∧
    callFn (evalNode 5) (Value.func "f" [] Node.NoneNode 0 Option.none) []
      initStore =
      handleReturn (evalNode 5 Node.NoneNode initStore.frames.size
        (pushCallFrame initStore (bindParams [] []) 0)) :=
  ⟨rfl, C3_theorem.2.1 (evalNode 5) "f" [] Node.NoneNode 0 Option.none []
    initStore rfl⟩

/-- Claim C4, counterexample: `"x" + true` concatenates using the host
`str()` and yields `"xTrue"`, whereas concatenating the display form (the
`say` rendering, which prints `true`) would yield `"xtrue"`. -/
theorem C4_counterexample :
    (evalNode 10 strPlusBoolProg 0 initStore).1 =
      Outcome.ok (Value.str "xTrue") ∧
    formatValue initStore 10 (Value.bool true) = "true" ∧
    "x" ++ formatValue initStore 10 (Value.bool true) = "xtrue" ∧
    ("xTrue" : String) ≠ "xtrue" :=
  ⟨rfl, rfl, rfl, by decide⟩

/-- Claim C4, amended: `+` (and `+=`, which dispatches identically) with a
string operand coerces both sides with the host `str()` — rendering null as
`None` and booleans as `True`/`False` — not with the `say` display form,
which uses `none`/`true`/`false`; without a string operand, `+` on ints is
numeric addition. -/
theorem C4_theorem :
    (∀ (fuel : Nat) (st : Store) (l r : Value),
       (∃ s, l = Value.str s) ∨ (∃ s, r = Value.str s) →
       addValues fuel l r st =
         (Outcome.ok (Value.str (pyStr st fuel l ++ pyStr st fuel r)), st)) ∧
    (∀ (fuel : Nat) (st : Store) (a b : Int),
       addValues fuel (Value.int a) (Value.int b) st =
         (Outcome.ok (Value.int (a + b)), st)) ∧
    (∀ (fuel : Nat) (current right : Value) (st : Store),
       applyCompound fuel "+" current right st =
         addValues fuel current right st) ∧
    (∀ (fuel : Nat) (l r : Value) (st : Store),
       applyBinOp fuel "+" l r st = addValues fuel l r st) ∧
    pyStr initStore 5 Value.none = "None" ∧
    formatValue initStore 5 Value.none = "none" ∧
    pyStr initStore 5 (Value.bool true) = "True" ∧
    pyStr initStore 5 (Value.bool false) = "False" := by
  refine ⟨?_, fun fuel st a b => rfl, fun fuel c r st => rfl,
    fun fuel l r st => rfl, rfl, rfl, rfl, rfl⟩
  rintro fuel st l r (⟨s, rfl⟩ | ⟨s, rfl⟩)
  · cases r <;> rfl
  · cases l <;> rfl

/-- Claim C4, witness: the string-coercion case of `C4_theorem` at
`"x" + true`. -/
theorem C4_witness :
    ((∃ s, Value.str "x" = Value.str s) ∨
     (∃ s, Value.bool true = Value.str s)) ∧
    addValues 5 (Value.str "x") (Value.bool true) initStore =
      (Outcome.ok (Value.str (pyStr initStore 5 (Value.str "x") ++
        pyStr initStore 5 (Value.bool true))), initStore) :=
  ⟨Or.inl ⟨"x", rfl⟩,
   C4_theorem.1 5 initStore (Value.str "x") (Value.bool true)
     (Or.inl ⟨"x", rfl⟩)⟩

/-- Claim C5, counterexample: `1 % 0` raises the host `ZeroDivisionError`
(there is no zero guard on `%`), not the structured runtime error, and the
driver reports it as an internal error. -/
theorem C5_counterexample :
    (evalNode 10 modZeroProg 0 initStore).1 =
      Outcome.err (EvalErr.hostError "ZeroDivisionError"
        "integer division or modulo by zero") ∧
    (∀ m, (evalNode 10 modZeroProg 0 initStore).1 ≠
      Outcome.err (EvalErr.runtimeError m)) ∧
    (runAST 10 (Node.BlockNode [modZeroProg])).1 =
      RunOutcome.internalErrorReport := by
  refine ⟨rfl, ?_, rfl⟩
  intro m h
  rw [show (evalNode 10 modZeroProg 0 initStore).1 =
    Outcome.err (EvalErr.hostError "ZeroDivisionError"
      "integer division or modulo by zero") from rfl] at h
  simp at h

/-- Claim C5, amended: `/` and `/=` (which share the dispatch) raise the
structured runtime error `Division by zero` for *every* left operand whenever
the right operand is a Python zero (`0`, `0.0`, `false`); `%` has no such
guard — a numeric left operand modulo integer zero raises the host
`ZeroDivisionError` instead. -/
theorem C5_theorem :
    (∀ (l r : Value) (st : Store), isPyZero r = true →
       divValues l r st =
         (Outcome.err (EvalErr.runtimeError "Division by zero"), st)) ∧
    (∀ (fuel : Nat) (l r : Value) (st : Store),
       applyBinOp fuel "/" l r st = divValues l r st) ∧
    (∀ (fuel : Nat) (l r : Value) (st : Store),
       applyCompound fuel "/" l r st = divValues l r st) ∧
    (∀ (fuel : Nat) (a : Int) (st : Store),
       applyBinOp fuel "%" (Value.int a) (Value.int 0) st =
         (Outcome.err (EvalErr.hostError "ZeroDivisionError"
           "integer division or modulo by zero"), st)) ∧
    isPyZero (Value.int 0) = true ∧
    isPyZero (Value.float 0) = true ∧
    isPyZero (Value.bool false) = true := by
  refine ⟨?_, fun fuel l r st => rfl, fun fuel l r st => rfl, ?_,
    rfl, rfl, rfl⟩
  · intro l r st h
    simp [divValues, h]
  · intro fuel a st
    rfl

/-- Claim C5, witness: the `/`-guard of `C5_theorem` at a *string* left
operand and right operand `0` — even then the structured `Division by zero`
is raised. -/
theorem C5_witness :
    isPyZero (Value.int 0) = true ∧
    divValues (Value.str "abc") (Value.int 0) initStore =
      (Outcome.err (EvalErr.runtimeError "Division by zero"), initStore) :=
  ⟨rfl, C5_theorem.1 (Value.str "abc") (Value.int 0) initStore rfl⟩

/-- Claim C6, counterexample: a top-level `break` unwinds to the driver as a
break signal and is reported by the generic internal-error handler — not as a
runtime-error diagnostic (one of the three structured kinds). -/
theorem C6_counterexample :
    runAST 12 (Node.BlockNode [Node.BreakNode]) =
      (RunOutcome.internalErrorReport, "") ∧
    (∀ m, (runAST 12 (Node.BlockNode [Node.BreakNode])).1 ≠
      RunOutcome.runtimeErrorReport m) := by
  refine ⟨rfl, ?_⟩
  intro m h
  rw [show (runAST 12 (Node.BlockNode [Node.BreakNode])).1 =
    RunOutcome.internalErrorReport from rfl] at h
  simp at h

/-- Claim C6, amended: `break`/`continue` outside any loop raise their
control signals, which unwind to the top uncaught; the driver's catch-all
reports them as an Internal Error, not as one of the three structured error
kinds. -/
theorem C6_theorem :
    (∀ (g : Nat) (env : Nat) (st : Store),
       evalNode (g + 1) Node.BreakNode env st =
         (Outcome.err EvalErr.breakSignal, st) ∧
       evalNode (g + 1) Node.ContinueNode env st =
         (Outcome.err EvalErr.continueSignal, st)) ∧
    runAST 10 (Node.BlockNode [Node.BreakNode]) =
      (RunOutcome.internalErrorReport, "") ∧
    runAST 10 (Node.BlockNode [Node.ContinueNode]) =
      (RunOutcome.internalErrorReport, "") :=
  ⟨fun g env st => ⟨rfl, rfl⟩, rfl, rfl⟩

/-- Claim C7 (confirmed): a function definition captures the environment it
is evaluated in — the stored closure environment is the defining frame, for
every definition site; a call builds its frame on the *captured* environment
(not the caller's); and in the `outer`/`inner` program, calling the value
returned by `outer()` after `outer` has returned yields 1. -/
theorem C7_theorem :
    (∀ (g : Nat) (name : String) (params : List String) (body : Node)
       (rt : Option String) (env : Nat) (st : Store),
       evalNode (g + 1) (Node.FunctionDefNode name params body rt) env st =
         (Outcome.ok Value.none,
          envSetVar st env name (Value.func name params body env rt))) ∧
    (∀ (ev : EvalFn) (name : String) (params : List String) (body : Node)
       (envRef : Nat) (rt : Option String) (args : List Value) (st : Store),
       args.length = params.length →
       callFn ev (Value.func name params body envRef rt) args st =
         handleReturn (ev body st.frames.size
           (pushCallFrame st (bindParams params args) envRef))) ∧
    (evalNode 50 closureProg 0 initStore).1 = Outcome.ok (Value.int 1) := by
  refine ⟨fun g name params body rt env st => rfl, ?_, rfl⟩
  intro ev name params body envRef rt args st h
  simp [callFn, h]

/-- Claim C7, witness: the call equation of `C7_theorem` at the `inner`
closure (no arguments). -/
theorem C7_witness :
    (([] : List Value).length = ([] : List String).length) ∧
    callFn (evalNode 9)
      (Value.func "inner" []
        (Node.BlockNode [Node.ReturnNode (Node.IdentifierNode "x")]) 1
        Option.none) [] initStore =
      handleReturn (evalNode 9
        (Node.BlockNode [Node.ReturnNode (Node.IdentifierNode "x")])
        initStore.frames.size
        (pushCallFrame initStore (bindParams [] []) 1)) :=
  ⟨rfl, C7_theorem.2.1 (evalNode 9) "inner" []
    (Node.BlockNode [Node.ReturnNode (Node.IdentifierNode "x")]) 1
    Option.none [] initStore rfl⟩

/-- Claim C8 (confirmed): for every list contents `l` and value `v`, the
`push` method appends `v` (returning the receiver) and an immediately
following `pop` returns `v` and restores the contents to `l`; the concrete
program `l = [1,2]; l.push(3); l.pop()` evaluates to 3 with the heap list
back to `[1, 2]`. -/
theorem C8_theorem :
    (∀ (fuel : Nat) (st : Store) (ref : Nat) (l : List Value) (v : Value),
       evalListMethod fuel st ref "push" l [v] =
         Except.ok (l ++ [v], Value.list ref)) ∧
    (∀ (fuel : Nat) (st : Store) (ref : Nat) (l : List Value) (v : Value),
       evalListMethod fuel st ref "pop" (l ++ [v]) [] = Except.ok (l, v)) ∧
    (evalNode 50 pushPopProg 0 initStore).1 = Outcome.ok (Value.int 3) ∧
    ((evalNode 50 pushPopProg 0 initStore).2).lists =
      #[[Value.int 1, Value.int 2]] := by
  refine ⟨fun fuel st ref l v => rfl, ?_, rfl, rfl⟩
  intro fuel st ref l v
  simp [evalListMethod, List.getLast?_concat, List.dropLast_concat]

/-- Iterating the shared loop body over any item list with an empty block
body: each step writes the item into the current frame, so the final store
carries the last item under the loop variable. -/
theorem loopRun_emptyBody (g : Nat) (var : String) (env : Nat) :
    ∀ (items : List Value) (last : Value) (st : Store),
      items.getLast? = some last →
      loopRun (evalNode (g + 1)) items var (Node.BlockNode []) env st =
        (Outcome.ok Value.none, envSetVar st env var last) := by
  intro items
  induction items with
  | nil => intro last st h; simp at h
  | cons x rest ih =>
    intro last st h
    cases rest with
    | nil =>
      simp [List.getLast?] at h
      subst h
      rfl
    | cons y rest2 =>
      rw [List.getLast?_cons_cons] at h
      calc loopRun (evalNode (g + 1)) (x :: y :: rest2) var
            (Node.BlockNode []) env st
          = loopRun (evalNode (g + 1)) (y :: rest2) var (Node.BlockNode [])
              env (envSetVar st env var x) := rfl
        _ = (Outcome.ok Value.none,
             envSetVar (envSetVar st env var x) env var last) :=
            ih last (envSetVar st env var x) h
        _ = (Outcome.ok Value.none, envSetVar st env var last) := by
            rw [envSetVar_envSetVar]

/-- `range(a, stop, 1)` enumerated. -/
theorem pyRange_step_one (a stop : Int) :
    pyRange a stop 1 =
      (List.range (stop - a).toNat).map (fun k : Nat => a + (k : Int)) := by
  unfold pyRange pyRangeLen
  norm_num [Int.fdiv_one]

/-- The last element of the ascending inclusive range `a..b` is `b`. -/
theorem rangeMap_getLast (a b : Int) (h : a ≤ b) :
    ((pyRange a (b + 1) 1).map Value.int).getLast? = some (Value.int b) := by
  rw [pyRange_step_one, List.map_map]
  have hn : (b + 1 - a).toNat = (b - a).toNat + 1 := by omega
  rw [hn, List.range_succ, List.map_append]
  rw [show List.map (Value.int ∘ fun k : Nat => a + (k : Int)) [(b - a).toNat]
      = [Value.int (a + (((b - a).toNat : Nat) : Int))] from rfl]
  rw [List.getLast?_concat]
  congr 2
  omega

/-- Claim C9 (confirmed): for-range and for-each bind the loop variable with
`env.set` on the *current* frame.  An ascending `for (var in a..b)` with an
empty body leaves the store with `var` bound to `b` in the current frame; the
shared iteration (also used by for-each) leaves the last item bound for any
item list; the write overwrites any prior binding of the name in that frame;
and binding never creates or removes frames. -/
theorem C9_theorem :
    (∀ (a b : Int) (var : String) (env : Nat) (st : Store),
       a ≤ b →
       evalNode 3
         (Node.ForRangeNode var (Node.NumberNode (PyNum.int a))
           (Node.NumberNode (PyNum.int b)) Option.none false
           (Node.BlockNode [])) env st =
         (Outcome.ok Value.none, envSetVar st env var (Value.int b))) ∧
    (∀ (g : Nat) (items : List Value) (last : Value) (var : String)
       (env : Nat) (st : Store),
       items.getLast? = some last →
       loopRun (evalNode (g + 1)) items var (Node.BlockNode []) env st =
         (Outcome.ok Value.none, envSetVar st env var last)) ∧
    (∀ (vs : List (String × Value)) (n : String) (v : Value),
       frameGet (frameSet vs n v) n = some v) ∧
    (∀ (st : Store) (e : Nat) (n : String) (v : Value),
       (envSetVar st e n v).frames.size = st.frames.size) := by
  refine ⟨?_, fun g items last var env st h =>
    loopRun_emptyBody g var env items last st h, frameGet_frameSet,
    envSetVar_frames_size⟩
  intro a b var env st hab
  have h2 : evalNode 3
      (Node.ForRangeNode var (Node.NumberNode (PyNum.int a))
        (Node.NumberNode (PyNum.int b)) Option.none false
        (Node.BlockNode [])) env st
      = loopRun (evalNode 2) ((pyRange a (b + 1) 1).map Value.int) var
          (Node.BlockNode []) env st := rfl
  rw [h2]
  exact loopRun_emptyBody 1 var env _ _ st (rangeMap_getLast a b hab)

/-- Claim C9, witness: `for (i in 1..3) {}` leaves `i = 3` in the current
frame. -/
theorem C9_witness :
    ((1 : Int) ≤ 3) ∧
    evalNode 3
      (Node.ForRangeNode "i" (Node.NumberNode (PyNum.int 1))
        (Node.NumberNode (PyNum.int 3)) Option.none false
        (Node.BlockNode [])) 0 initStore =
      (Outcome.ok Value.none, envSetVar initStore 0 "i" (Value.int 3)) :=
  ⟨by decide, C9_theorem.1 1 3 "i" 0 initStore (by decide)⟩

/-- Claim C10 (confirmed): in an object literal a bare-identifier key and a
keyword key are parsed as *string literal* nodes of their spelled names, and
evaluating the resulting literal yields a map keyed by that string no matter
what value the same name is bound to in scope — the key position is never
evaluated as a variable. -/
theorem C10_theorem :
    parseObjectLiteral 10 objTokensIdent =
      Except.ok (Node.ObjectLiteralNode
        [(Node.StringNode "a", Node.NumberNode (PyNum.int 1))], []) ∧
    parseObjectLiteral 10 objTokensKeyword =
      Except.ok (Node.ObjectLiteralNode
        [(Node.StringNode "if", Node.NumberNode (PyNum.int 2))], []) ∧
    (∀ (w : Value),
       evalNode 10 (Node.ObjectLiteralNode
         [(Node.StringNode "a", Node.NumberNode (PyNum.int 1))]) 0
         (storeWithA w) =
       (Outcome.ok (Value.dict 0),
        { storeWithA w with dicts := #[[(Value.str "a", Value.int 1)]] })) :=
  ⟨rfl, rfl, fun w => rfl⟩

end Elang
